import Mathlib

/-!
A shallow embedding of the affiliate-link conversion subsystem of the
thiagosarraff/instagram-promo-stories repository, together with theorems
settling the frozen claims about it.

Embedded source files:
* `app_modules/affiliate/manager.py` — `AffiliateManager.detect_marketplace`,
  `AffiliateManager.convert_link`, `AffiliateManager._fallback`;
* `app_modules/affiliate/base.py` — `BaseAffiliateConverter._validate_original_link`;
* `app_modules/affiliate/converters/amazon.py` — tag validation, ASIN
  extraction, link construction;
* `app_modules/affiliate/converters/shopee.py` — signature generation,
  `_generate_short_link` status handling, `convert_link` fallback policy;
* `app_modules/affiliate/converters/mercadolivre.py` — `validate_cookies`
  (JWT expiry pipeline) and `convert_link`'s error propagation policy.

Python machine-level behaviour is modelled explicitly: exceptions become an
inductive `PyExc` carried in `Except`, effectful steps (file reads, browser
scraping, HTTP requests) become explicit parameters holding the outcome of
the step, `time.time()` becomes a rational parameter, and the standard
library routines the code calls (`re` matching for the two anchored
patterns, `base64.b64decode` in its lenient mode, `json.loads`,
`hashlib.sha256`, UTF-8 coding) are implemented executably below.
-/

set_option maxRecDepth 16384

namespace PromoStories

/-! ### Character and list helpers -/

/-- Bool test that `lo ≤ n ≤ hi`. -/
def between (lo hi n : Nat) : Bool :=
  Nat.ble lo n && Nat.ble n hi

def isDigitB (c : Char) : Bool := between 48 57 c.toNat

def isUpperB (c : Char) : Bool := between 65 90 c.toNat

def isLowerB (c : Char) : Bool := between 97 122 c.toNat

def isAlphaB (c : Char) : Bool := isUpperB c || isLowerB c

def isAlnumB (c : Char) : Bool := isAlphaB c || isDigitB c

/-- ASCII lowering of one character; URLs handled by the code are ASCII, so
this models Python `str.lower` on the inputs that occur. -/
def asciiLower (c : Char) : Char :=
  if isUpperB c then Char.ofNat (c.toNat + 32) else c

/-- Does `hay` start with `needle`? -/
def listStarts : List Char → List Char → Bool
  | [], _ => true
  | _ :: _, [] => false
  | n :: ns, h :: hs => (n == h) && listStarts ns hs

/-- Does `hay` contain `needle` as a contiguous substring?  Models the
Python `needle in hay` test on strings. -/
def listSub (needle : List Char) : List Char → Bool
  | [] => needle.isEmpty
  | c :: rest => listStarts needle (c :: rest) || listSub needle rest

def strHasSub (hay needle : String) : Bool := listSub needle.data hay.data

/-- Last binding of a key in an association list.  Python dict displays and
comprehensions keep the LAST value written for a repeated key, so lookups in
dicts built from sequences resolve to the last occurrence. -/
def lastAssoc {α : Type} : List (String × α) → String → Option α
  | [], _ => none
  | (k, v) :: rest, key =>
    match lastAssoc rest key with
    | some r => some r
    | none => if k == key then some v else none

/-- Split a character list at a separator character, keeping empty pieces:
models Python `str.split(sep)` for a one-character separator. -/
def splitCh (sep : Char) : List Char → List (List Char)
  | [] => [[]]
  | c :: rest =>
    let r := splitCh sep rest
    if c == sep then [] :: r
    else
      match r with
      | s :: ss => (c :: s) :: ss
      | [] => [[c]]

/-- Split at the first colon, if any: `(before, after)`. -/
def splitAtColon : List Char → Option (List Char × List Char)
  | [] => none
  | c :: rest =>
    if c == ':' then some ([], rest)
    else
      match splitAtColon rest with
      | some (a, b) => some (c :: a, b)
      | none => none

/-! ### Python exception values

Each constructor stands for one Python exception class raised somewhere in
the embedded code, carrying its message; `pyStr` is `str(e)`. -/

inductive PyExc where
  | invalidLink (msg : String)
  | conversionError (msg : String)
  | amazonInvalidTag (msg : String)
  | mlRateLimit (msg : String)
  | mlInvalidSession (msg : String)
  | mlProductNotFound (msg : String)
  | mlApiError (msg : String)
  | shopeeInvalidLink (msg : String)
  | shopeeRateLimit (msg : String)
  | shopeeInvalidSession (msg : String)
  | shopeeApiError (msg : String)
  | keyError (msg : String)
  | indexError (msg : String)
  | fileNotFound (msg : String)
  | otherExc (msg : String)
deriving DecidableEq

/-- An ASCII single-quote character, as `str(KeyError(k))` shows `repr(k)`. -/
def sqStr : String := ⟨[Char.ofNat 39]⟩

/-- Python `str(e)` for the exceptions above: the message, except that
`KeyError` shows the repr of its key. -/
def pyStr : PyExc → String
  | .keyError m => sqStr ++ m ++ sqStr
  | .invalidLink m | .conversionError m | .amazonInvalidTag m
  | .mlRateLimit m | .mlInvalidSession m | .mlProductNotFound m
  | .mlApiError m | .shopeeInvalidLink m | .shopeeRateLimit m
  | .shopeeInvalidSession m | .shopeeApiError m
  | .indexError m | .fileNotFound m | .otherExc m => m

/-! ### Shared URL-shape validation — `base.py`, `_validate_original_link`

The Python regex, compiled with `re.IGNORECASE` and matched with
`re.match` (so anchored at both ends through the final `$`):

  `^https?://(?:(?:[A-Z0-9](?:[A-Z0-9-]{0,61}[A-Z0-9])?\.)+[A-Z]{2,6}\.?|`
  `localhost|\d{1,3}\.\d{1,3}\.\d{1,3}\.\d{1,3})(?::\d+)?(?:/?|[/?]\S+)$`

The checker below decides membership in this regex's language directly
(the pattern has no backreferences, so language membership and
backtracking-match agree).  Case-insensitivity is handled by lowering the
whole input, which the pattern's classes are insensitive to. -/

/-- Whitespace for the regex `\S` class (ASCII model of Python `\s`). -/
def isSpaceB (c : Char) : Bool :=
  c == ' ' || c == '\t' || c == '\n' || c == '\r' || c == '\x0b' || c == '\x0c'

/-- One host label: `[A-Z0-9](?:[A-Z0-9-]{0,61}[A-Z0-9])?` (lowered input). -/
def validLabel (l : List Char) : Bool :=
  match l with
  | [] => false
  | c :: rest =>
    match rest.reverse with
    | [] => isAlnumB c
    | last :: midRev =>
      isAlnumB c && isAlnumB last
        && midRev.all (fun x => isAlnumB x || x == '-')
        && Nat.ble midRev.length 61

/-- Top-level-domain piece: `[A-Z]{2,6}` (lowered input). -/
def validTld (l : List Char) : Bool :=
  between 2 6 l.length && l.all isAlphaB

/-- Dotted-domain alternative `(?:label\.)+[A-Z]{2,6}\.?` of the host. -/
def validDomainHost (host : List Char) : Bool :=
  match (splitCh '.' host).reverse with
  | [] => false
  | lastPart :: restRev =>
    if lastPart.isEmpty then
      match restRev with
      | [] => false
      | tld :: labelsRev =>
        validTld tld && !labelsRev.isEmpty && labelsRev.all validLabel
    else
      match restRev with
      | [] => false
      | _ :: _ => validTld lastPart && restRev.all validLabel

/-- IP alternative `\d{1,3}\.\d{1,3}\.\d{1,3}\.\d{1,3}` of the host. -/
def validIpv4 (host : List Char) : Bool :=
  let parts := splitCh '.' host
  parts.length == 4 && parts.all (fun p => between 1 3 p.length && p.all isDigitB)

def validHost (host : List Char) : Bool :=
  validDomainHost host || host == "localhost".data || validIpv4 host

/-- Host plus the optional `(?::\d+)?` port (no alternative admits a colon,
so the split at the first colon is exact). -/
def validHostPort (hp : List Char) : Bool :=
  match splitAtColon hp with
  | none => validHost hp
  | some (h, p) => validHost h && !p.isEmpty && p.all isDigitB

/-- Trailing `(?:/?|[/?]\S+)$` part. -/
def validTail (t : List Char) : Bool :=
  match t with
  | [] => true
  | ['/'] => true
  | c :: rest =>
    (c == '/' || c == '?') && !rest.isEmpty && rest.all (fun x => !isSpaceB x)

/-- Boolean result of `BaseAffiliateConverter._validate_original_link`: the
method raises `InvalidLinkError` exactly when this is false. -/
def validUrl (s : String) : Bool :=
  match s.data.map asciiLower with
  | 'h' :: 't' :: 't' :: 'p' :: rest =>
    let afterS :=
      match rest with
      | 's' :: r => r
      | r => r
    match afterS with
    | ':' :: '/' :: '/' :: r =>
      let hostport := r.takeWhile (fun c => !(c == '/' || c == '?'))
      let tail := r.drop hostport.length
      validHostPort hostport && validTail tail
    | _ => false
  | _ => false

/-! ### Marketplace detection — `manager.py`, `detect_marketplace` -/

def schemeChar (c : Char) : Bool :=
  isAlphaB c || isDigitB c || c == '+' || c == '-' || c == '.'

/-- Model of `urllib.parse` scheme stripping: if the text before the first
colon is a wellformed scheme (letter head, scheme chars), drop it. -/
def dropScheme (cs : List Char) : List Char :=
  match splitAtColon cs with
  | some (before, after) =>
    match before with
    | [] => cs
    | c :: rest => if isAlphaB c && rest.all schemeChar then after else cs
  | none => cs

/-- Model of `urlparse(url).netloc`: after the scheme, a leading `//`
introduces the netloc, running to the next `/`, `?` or `#`. -/
def netlocOf (cs : List Char) : List Char :=
  match dropScheme cs with
  | '/' :: '/' :: r => r.takeWhile (fun c => !(c == '/' || c == '?' || c == '#'))
  | _ => []

/-- A netloc with an unbalanced bracket makes `urlparse` raise `ValueError`,
which `detect_marketplace` catches, returning `None`. -/
def netlocBad (nl : List Char) : Bool :=
  (nl.contains '[') != (nl.contains ']')

/-- The domain-to-marketplace table of `detect_marketplace`, in the source's
insertion order (the partial-match loop walks it in this order). -/
def marketplaceMap : List (String × String) :=
  [("mercadolivre.com.br", "mercadolivre"),
   ("produto.mercadolivre.com.br", "mercadolivre"),
   ("amazon.com.br", "amazon"),
   ("www.amazon.com.br", "amazon"),
   ("shopee.com.br", "shopee"),
   ("www.shopee.com.br", "shopee")]

/-- `AffiliateManager.detect_marketplace`: parse the netloc, lower it,
strip a leading `www.`, try an exact table hit, then the first table entry
whose domain is a substring of the host. -/
def detectMarketplace (url : String) : Option String :=
  let nl := netlocOf url.data
  if netlocBad nl then none
  else
    let domain := nl.map asciiLower
    let domain := if listStarts "www.".data domain then domain.drop 4 else domain
    match marketplaceMap.find? (fun p => p.1.data == domain) with
    | some p => some p.2
    | none => (marketplaceMap.find? (fun p => listSub p.1.data domain)).map (fun p => p.2)

/-! ### The Conversion Manager — `manager.py`, `convert_link` / `_fallback` -/

/-- The dictionary `convert_link` returns. -/
structure ConversionResult where
  link : String
  status : String
  marketplace : String
  error : Option String
deriving DecidableEq

/-- `AffiliateManager._fallback` (its logging side effect is dropped). -/
def fallbackR (originalLink marketplace error : String) : ConversionResult :=
  ⟨originalLink, "fallback", marketplace, some error⟩

/-- A registered converter, as the manager sees it: the outcome of awaiting
`converter.convert_link(original_link)` — a returned string or a raised
exception. -/
abbrev Converter := String → Except PyExc String

/-- The manager's `_converters` dict; `register_converter` overwrites, so a
repeated key resolves to the last registration (`lastAssoc`). -/
abbrev Registry := List (String × Converter)

/-- `AffiliateManager.convert_link`.  The whole Python body sits in a
`try`, and `except Exception` turns any raised exception into the fallback
result with the marketplace re-detected (or `unknown`); in this model the
only raising step is the converter call, and the function is total — the
manager never raises. -/
def managerConvertLink (reg : Registry) (orig : String) : ConversionResult :=
  match detectMarketplace orig with
  | none => fallbackR orig "marketplace_not_detected" "Could not detect marketplace from URL"
  | some m =>
    match lastAssoc reg m with
    | none => fallbackR orig m ("Marketplace not supported yet: " ++ m)
    | some conv =>
      match conv orig with
      | Except.ok c => ⟨c, "success", m, none⟩
      | Except.error e =>
        fallbackR orig
          (match detectMarketplace orig with
           | some m2 => m2
           | none => "unknown")
          (pyStr e)

/-! ### The Fixed-Parameter (Amazon) converter — `amazon.py` -/

/-- `AmazonConverter._is_amazon_link`: `re.search` of the domain patterns,
whose only metacharacters are escaped dots — substring tests. -/
def isAmazonLink (url : String) : Bool :=
  listSub "amazon.com.br".data url.data
    || listSub "amazon.com".data url.data
    || listSub "amzn.to".data url.data

/-- Class `[A-Z0-9]` of the ASIN patterns (no IGNORECASE here). -/
def isAsinChar (c : Char) : Bool := isUpperB c || isDigitB c

/-- Match one literal at the head of `cs`, returning the remainder. -/
def dropLit : List Char → List Char → Option (List Char)
  | [], cs => some cs
  | _ :: _, [] => none
  | l :: ls, c :: cs => if l == c then dropLit ls cs else none

/-- Try the pattern `lit([A-Z0-9]{10})` at the head position. -/
def matchAsinAt (lit cs : List Char) : Option (List Char) :=
  match dropLit lit cs with
  | none => none
  | some rest =>
    let g := rest.take 10
    if g.length == 10 && g.all isAsinChar then some g else none

/-- `re.search` of `lit([A-Z0-9]{10})`: leftmost match wins, group 1. -/
def searchAsin (lit : List Char) : List Char → Option (List Char)
  | [] => matchAsinAt lit []
  | c :: rest =>
    match matchAsinAt lit (c :: rest) with
    | some g => some g
    | none => searchAsin lit rest

/-- `AmazonConverter._extract_asin`: the ordered `ASIN_PATTERNS` list,
first pattern that matches anywhere wins. -/
def extractAsin (url : String) : Option String :=
  match searchAsin "/dp/".data url.data with
  | some g => some ⟨g⟩
  | none =>
    match searchAsin "/gp/product/".data url.data with
    | some g => some ⟨g⟩
    | none =>
      match searchAsin "/ASIN/".data url.data with
      | some g => some ⟨g⟩
      | none => none

/-- `AmazonConverter._validate_associate_tag`: the anchored pattern
`^[a-zA-Z0-9.]+(-[a-zA-Z0-9.]+)*-\d+$`.  Its language is exactly: split on
hyphens into at least two nonempty pieces, all but the last over
`[a-zA-Z0-9.]`, the last over digits. -/
def validAssociateTag (tag : String) : Bool :=
  match (splitCh '-' tag.data).reverse with
  | [] => false
  | last :: initRev =>
    !initRev.isEmpty && !last.isEmpty && last.all isDigitB
      && initRev.all (fun p => !p.isEmpty && p.all (fun c => isAlnumB c || c == '.'))

/-- `AmazonConverter.__init__`: construction fails with
`AmazonInvalidAssociateTagError` on a tag the format check rejects. -/
def amazonInit (tag : String) : Except PyExc Unit :=
  if validAssociateTag tag then Except.ok ()
  else Except.error (PyExc.amazonInvalidTag
    ("Associate Tag inválida: " ++ tag ++ ". Formato esperado: nome-tag-20"))

/-- `AmazonConverter._build_affiliate_link`. -/
def buildAffiliateLink (tag asin : String) : String :=
  "https://amazon.com.br/dp/" ++ asin ++ "?tag=" ++ tag

/-- `AmazonConverter.convert_link`: reject non-Amazon links, validate the
URL shape, extract the ASIN, build the affiliate URL. -/
def amazonConvertLink (tag url : String) : Except PyExc String :=
  if !isAmazonLink url then
    Except.error (PyExc.invalidLink ("Link não é da Amazon: " ++ url))
  else if !validUrl url then
    Except.error (PyExc.invalidLink ("Invalid URL format: " ++ url))
  else
    match extractAsin url with
    | none => Except.error (PyExc.conversionError
        ("Não foi possível extrair ASIN do link: " ++ url
          ++ ". Link pode estar malformado ou não ser de produto."))
    | some a => Except.ok (buildAffiliateLink tag a)

/-! ### SHA-256 — model of `hashlib.sha256(...).hexdigest()`

32-bit words are Nats reduced mod `2 ^ 32`; the bitwise operations are
implemented by 32-step binary recursions so that everything reduces by
plain arithmetic. -/

def u32 (n : Nat) : Nat := n % 4294967296

def xorBits : Nat → Nat → Nat → Nat
  | 0, _, _ => 0
  | k + 1, a, b => (if a % 2 == b % 2 then 0 else 1) + 2 * xorBits k (a / 2) (b / 2)

def andBits : Nat → Nat → Nat → Nat
  | 0, _, _ => 0
  | k + 1, a, b => (a % 2) * (b % 2) + 2 * andBits k (a / 2) (b / 2)

def xor32 (a b : Nat) : Nat := xorBits 32 a b

def and32 (a b : Nat) : Nat := andBits 32 a b

def not32 (a : Nat) : Nat := 4294967295 - u32 a

/-- Right rotation of a word already below `2 ^ 32`. -/
def rotr32 (n x : Nat) : Nat := x / 2 ^ n + x % 2 ^ n * 2 ^ (32 - n)

def shr32 (n x : Nat) : Nat := x / 2 ^ n

def shaCh (x y z : Nat) : Nat := xor32 (and32 x y) (and32 (not32 x) z)

def shaMaj (x y z : Nat) : Nat :=
  xor32 (xor32 (and32 x y) (and32 x z)) (and32 y z)

def shaS0 (x : Nat) : Nat := xor32 (xor32 (rotr32 2 x) (rotr32 13 x)) (rotr32 22 x)

def shaS1 (x : Nat) : Nat := xor32 (xor32 (rotr32 6 x) (rotr32 11 x)) (rotr32 25 x)

def shaG0 (x : Nat) : Nat := xor32 (xor32 (rotr32 7 x) (rotr32 18 x)) (shr32 3 x)

def shaG1 (x : Nat) : Nat := xor32 (xor32 (rotr32 17 x) (rotr32 19 x)) (shr32 10 x)

/-- The 64 SHA-256 round constants of FIPS 180-4, written in decimal. -/
def shaK : List Nat :=
  [1116352408, 1899447441, 3049323471, 3921009573, 961987163, 1508970993,
   2453635748, 2870763221, 3624381080, 310598401, 607225278, 1426881987,
   1925078388, 2162078206, 2614888103, 3248222580, 3835390401, 4022224774,
   264347078, 604807628, 770255983, 1249150122, 1555081692, 1996064986,
   2554220882, 2821834349, 2952996808, 3210313671, 3336571891, 3584528711,
   113926993, 338241895, 666307205, 773529912, 1294757372, 1396182291,
   1695183700, 1986661051, 2177026350, 2456956037, 2730485921, 2820302411,
   3259730800, 3345764771, 3516065817, 3600352804, 4094571909, 275423344,
   430227734, 506948616, 659060556, 883997877, 958139571, 1322822218,
   1537002063, 1747873779, 1955562222, 2024104815, 2227730452, 2361852424,
   2428436474, 2756734187, 3204031479, 3329325298]

/-- The initial SHA-256 state of FIPS 180-4, written in decimal. -/
def shaH0 : List Nat :=
  [1779033703, 3144134277, 1013904242, 2773480762,
   1359893119, 2600822924, 528734635, 1541459225]

/-- Big-endian 8-byte encoding of the bit length. -/
def lenBE8 (n : Nat) : List Nat :=
  [n / 2 ^ 56 % 256, n / 2 ^ 48 % 256, n / 2 ^ 40 % 256, n / 2 ^ 32 % 256,
   n / 2 ^ 24 % 256, n / 2 ^ 16 % 256, n / 2 ^ 8 % 256, n % 256]

/-- Append the `0x80` marker, zero padding to 56 mod 64, and the length. -/
def sha256Pad (msg : List Nat) : List Nat :=
  let L := msg.length
  msg ++ 128 :: List.replicate ((120 - (L + 1) % 64) % 64) 0 ++ lenBE8 (L * 8)

def bytesToWords : List Nat → List Nat
  | a :: b :: c :: d :: rest => (((a * 256 + b) * 256 + c) * 256 + d) :: bytesToWords rest
  | _ => []

/-- Cut a word list into 16-word blocks (the fuel bounds the block count). -/
def chunk16 : Nat → List Nat → List (List Nat)
  | 0, _ => []
  | _, [] => []
  | f + 1, ws => ws.take 16 :: chunk16 f (ws.drop 16)

/-- Extend a 16-word block by `k` scheduled words. -/
def shaSchedule : Nat → List Nat → List Nat
  | 0, ws => ws
  | k + 1, ws =>
    let n := ws.length
    let w := u32 (shaG1 (ws.getD (n - 2) 0) + ws.getD (n - 7) 0
      + shaG0 (ws.getD (n - 15) 0) + ws.getD (n - 16) 0)
    shaSchedule k (ws ++ [w])

/-- One compression round over the 8-word working state. -/
def shaRound (st : List Nat) (kw : Nat × Nat) : List Nat :=
  match st with
  | [a, b, c, d, e, f, g, h] =>
    let t1 := u32 (h + shaS1 e + shaCh e f g + kw.1 + kw.2)
    let t2 := u32 (shaS0 a + shaMaj a b c)
    [u32 (t1 + t2), a, b, c, u32 (d + t1), e, f, g]
  | st => st

def shaBlock (H : List Nat) (block : List Nat) : List Nat :=
  let W := shaSchedule 48 block
  let st := (shaK.zip W).foldl shaRound H
  (H.zip st).map (fun p => u32 (p.1 + p.2))

/-- SHA-256 digest of a byte sequence, as 32 bytes. -/
def sha256Bytes (msg : List Nat) : List Nat :=
  let blocks := chunk16 (msg.length + 72) (bytesToWords (sha256Pad msg))
  let Hf := blocks.foldl shaBlock shaH0
  Hf.foldr (fun w acc => w / 2 ^ 24 % 256 :: w / 2 ^ 16 % 256 :: w / 2 ^ 8 % 256 :: w % 256 :: acc) []

def hexDigit (n : Nat) : Char :=
  if n < 10 then Char.ofNat (48 + n) else Char.ofNat (87 + n)

def byteHex (b : Nat) : List Char := [hexDigit (b / 16), hexDigit (b % 16)]

/-- Lowercase hex digest, as `hexdigest()` renders it. -/
def sha256Hex (msg : List Nat) : String :=
  ⟨(sha256Bytes msg).foldr (fun b acc => byteHex b ++ acc) []⟩

/-! ### UTF-8 — `str.encode("utf-8")` and strict decoding -/

/-- UTF-8 bytes of one scalar value (Lean `Char` is always a scalar). -/
def utf8Char (c : Char) : List Nat :=
  let n := c.toNat
  if n < 128 then [n]
  else if n < 2048 then [192 + n / 64, 128 + n % 64]
  else if n < 65536 then [224 + n / 4096, 128 + n / 64 % 64, 128 + n % 64]
  else [240 + n / 262144, 128 + n / 4096 % 64, 128 + n / 64 % 64, 128 + n % 64]

def utf8Encode (s : String) : List Nat :=
  s.data.foldr (fun c acc => utf8Char c ++ acc) []

/-- Continuation-byte test. -/
def utf8Cont (b : Nat) : Bool := between 128 191 b

/-- Strict UTF-8 decoding (overlong forms and surrogates rejected), as the
CPython codec used by `json.loads(bytes)` behaves. -/
def utf8Dec : List Nat → Option (List Char)
  | [] => some []
  | b :: rest =>
    if b < 128 then (utf8Dec rest).map (Char.ofNat b :: ·)
    else if between 194 223 b then
      match rest with
      | b2 :: rest2 =>
        if utf8Cont b2 then
          (utf8Dec rest2).map (Char.ofNat ((b - 192) * 64 + (b2 - 128)) :: ·)
        else none
      | [] => none
    else if between 224 239 b then
      match rest with
      | b2 :: b3 :: rest2 =>
        let ok2 :=
          if b == 224 then between 160 191 b2
          else if b == 237 then between 128 159 b2
          else utf8Cont b2
        if ok2 && utf8Cont b3 then
          (utf8Dec rest2).map (Char.ofNat ((b - 224) * 4096 + (b2 - 128) * 64 + (b3 - 128)) :: ·)
        else none
      | _ => none
    else if between 240 244 b then
      match rest with
      | b2 :: b3 :: b4 :: rest2 =>
        let ok2 :=
          if b == 240 then between 144 191 b2
          else if b == 244 then between 128 143 b2
          else utf8Cont b2
        if ok2 && utf8Cont b3 && utf8Cont b4 then
          (utf8Dec rest2).map
            (Char.ofNat ((b - 240) * 262144 + (b2 - 128) * 4096 + (b3 - 128) * 64 + (b4 - 128)) :: ·)
        else none
      | _ => none
    else none

/-! ### The Signed-API (Shopee) converter — `shopee.py` -/

/-- Escaping of one character in `json.dumps` with `ensure_ascii=False`:
quote, backslash and controls escaped, everything else passed through. -/
def jsonEscapeChar (c : Char) : List Char :=
  if c == '"' then ['\\', '"']
  else if c == '\\' then ['\\', '\\']
  else if c == '\n' then ['\\', 'n']
  else if c == '\t' then ['\\', 't']
  else if c == '\r' then ['\\', 'r']
  else if c.toNat == 8 then ['\\', 'b']
  else if c.toNat == 12 then ['\\', 'f']
  else if c.toNat < 32 then '\\' :: 'u' :: '0' :: '0' :: byteHex c.toNat
  else [c]

/-- `json.dumps` of a string value. -/
def pyJsonStr (s : String) : String :=
  ⟨'"' :: s.data.foldr (fun c acc => jsonEscapeChar c ++ acc) ['"']⟩

/-- Compact `json.dumps({"query": q}, ensure_ascii=False, separators=(",", ":"))`:
the exact byte layout the signature is computed over. -/
def shopeeCompactBody (q : String) : String :=
  "\x7b\"query\":" ++ pyJsonStr q ++ "\x7d"

/-- `ShopeeConverter._generate_signature`: the SHA-256 hex digest of
`app_id + timestamp + compact_payload + app_secret`, UTF-8 encoded. -/
def shopeeSignature (appId appSecret timestamp q : String) : String :=
  sha256Hex (utf8Encode (appId ++ timestamp ++ shopeeCompactBody q ++ appSecret))

/-- `ShopeeConverter._is_shopee_link`: lowercase substring test against
`SHOPEE_DOMAINS`. -/
def isShopeeLink (url : String) : Bool :=
  let l := url.data.map asciiLower
  listSub "shopee.com.br".data l
    || listSub "s.shopee.com.br".data l
    || listSub "shope.ee".data l

/-- The HTTP response `_generate_short_link` receives, reduced to the parts
the code inspects: the status code, the optional `data.generateShortLink`
object (itself holding an optional `shortLink` value), and the optional
GraphQL `errors` array (each entry reduced to its optional `message`). -/
structure ShopeeResp where
  status : Nat
  dataShort : Option (Option String)
  errs : Option (List (Option String))
deriving DecidableEq

/-- `ShopeeConverter._generate_short_link`, given the response: 429 raises
`ShopeeRateLimitError`, 401 raises `ShopeeInvalidSessionError`, any other
non-200 raises `ShopeeAPIError`; a 200 body is probed for
`data.generateShortLink` FIRST (a present object missing `shortLink`
raises `KeyError`), only then for `errors` (an empty array raises
`IndexError` at `errors[0]`), else `ShopeeAPIError` on the shape. -/
def shopeeGenerate (resp : ShopeeResp) : Except PyExc String :=
  if resp.status = 429 then
    Except.error (PyExc.shopeeRateLimit "Rate limit excedido pela API da Shopee")
  else if resp.status = 401 then
    Except.error (PyExc.shopeeInvalidSession
      "Credenciais inválidas. Verifique SHOPEE_APP_ID e SHOPEE_APP_PASSWORD no .env")
  else if resp.status ≠ 200 then
    Except.error (PyExc.shopeeApiError ("API retornou status " ++ toString resp.status))
  else
    match resp.dataShort with
    | some (some s) => Except.ok s
    | some none => Except.error (PyExc.keyError "shortLink")
    | none =>
      match resp.errs with
      | some (m :: _) =>
        Except.error (PyExc.shopeeApiError ("GraphQL error: " ++ m.getD "Unknown error"))
      | some [] => Except.error (PyExc.indexError "list index out of range")
      | none => Except.error (PyExc.shopeeApiError "Formato de resposta inesperado")

/-- `ShopeeConverter.convert_link`: the two validation errors are raised
before the `try`; inside it, `except ShopeeRateLimitError` and the
catch-all `except Exception` BOTH return the original link, so every
exception from the API helper ends in a soft fallback. -/
def shopeeConvertLink (url : String) (resp : ShopeeResp) : Except PyExc String :=
  if !isShopeeLink url then
    Except.error (PyExc.shopeeInvalidLink ("Link não é da Shopee: " ++ url))
  else if !validUrl url then
    Except.error (PyExc.shopeeInvalidLink ("URL malformada: " ++ url))
  else
    match shopeeGenerate resp with
    | Except.ok s => Except.ok s
    | Except.error _ => Except.ok url

/-! ### Lenient base64 — `base64.b64decode` without `validate`

CPython's lenient `binascii.a2b_base64` loop: characters outside the
alphabet are discarded; a data character is consumed and resets the pad
count; an `=` counts as padding only when the current quad already holds
two or three data characters (`quad_pos >= 2 && quad_pos + ++pads >= 4`),
and decoding stops — discarding the rest of the input — once the pads
seen complete that quad (one `=` on a quad of three, two on a quad of
two); an `=` on an empty or one-character quad is ignored.  At the end,
a leftover quad of one character is the "number of data characters"
error and a leftover quad of two or three is "Incorrect padding".
(Behaviour confirmed against CPython 3 on thirty inputs, among them
`QQ==`, `QQ=`, `Q===`, `QUJ=`, `QUJD====`, `QQ=x=`, `QQ==x`, `QQ=!=`,
`QQ=QQ`, `QU=JD`, `QUJD=QQ==`, `aGVsbG8=d29ybGQ=`,
`eyJl=eHAiOjk5OTk5OTk5OTl9===`.) -/

/-- Value of one base64 alphabet character. -/
def b64Val (c : Char) : Option Nat :=
  if isUpperB c then some (c.toNat - 65)
  else if isLowerB c then some (c.toNat - 71)
  else if isDigitB c then some (c.toNat + 4)
  else if c == '+' then some 62
  else if c == '/' then some 63
  else none

/-- Scan of the input: `(data values, stopped by padding?)`.  `acc` holds
the consumed data values in reverse, `pads` the pads counted on the
current quad since the last data character. -/
def b64Scan : List Char → List Nat → Nat → List Nat × Bool
  | [], acc, _ => (acc.reverse, false)
  | c :: rest, acc, pads =>
    match b64Val c with
    | some v => b64Scan rest (v :: acc) 0
    | none =>
      if c == '=' then
        if acc.length % 4 == 3 then (acc.reverse, true)
        else if acc.length % 4 == 2 then
          if Nat.ble 1 pads then (acc.reverse, true)
          else b64Scan rest acc (pads + 1)
        else b64Scan rest acc pads
      else b64Scan rest acc pads

/-- Reassemble bytes from 6-bit values (a final quad of 2 or 3). -/
def b64Groups : List Nat → List Nat
  | a :: b :: c :: d :: rest =>
    (a * 4 + b / 16) :: (b % 16 * 16 + c / 4) :: (c % 4 * 64 + d) :: b64Groups rest
  | [a, b] => [a * 4 + b / 16]
  | [a, b, c] => [a * 4 + b / 16, b % 16 * 16 + c / 4]
  | _ => []

/-- `base64.b64decode(s)` in lenient mode; `none` models `binascii.Error`
(both the one-extra-character error and "Incorrect padding"). -/
def pyB64Decode (s : String) : Option (List Nat) :=
  match b64Scan s.data [] 0 with
  | (data, true) => some (b64Groups data)
  | (data, false) =>
    if data.length % 4 == 0 then some (b64Groups data) else none

/-! ### JSON — `json.loads`

A strict RFC-style parser matching Python's default decoder on the inputs
that can occur here.  Numbers are exact rationals, where CPython parses a
float for fractional or exponent forms (identical on integers, which is
what a JWT `exp` is); lone `\uXXXX` surrogates, `NaN` and `Infinity` are
rejected rather than produced (they cannot arise from the embedded uses). -/

inductive JVal where
  | jnull
  | jbool (b : Bool)
  | jnum (q : Rat)
  | jstr (s : String)
  | jarr (xs : List JVal)
  | jobj (fields : List (String × JVal))

def lbrace : Char := Char.ofNat 123

def rbrace : Char := Char.ofNat 125

/-- JSON whitespace: space, tab, newline, carriage return. -/
def jskipWs : List Char → List Char
  | c :: rest =>
    if c == ' ' || c == '\t' || c == '\n' || c == '\r' then jskipWs rest else c :: rest
  | [] => []

def hexVal (c : Char) : Option Nat :=
  if isDigitB c then some (c.toNat - 48)
  else if between 97 102 c.toNat then some (c.toNat - 87)
  else if between 65 70 c.toNat then some (c.toNat - 55)
  else none

def jparseHex4 : List Char → Option (Nat × List Char)
  | a :: b :: c :: d :: rest =>
    match b64ValGuard (hexVal a) (hexVal b) (hexVal c) (hexVal d) with
    | some n => some (n, rest)
    | none => none
  | _ => none
where
  b64ValGuard : Option Nat → Option Nat → Option Nat → Option Nat → Option Nat
    | some va, some vb, some vc, some vd => some (((va * 16 + vb) * 16 + vc) * 16 + vd)
    | _, _, _, _ => none

/-- String body after the opening quote: content and remainder. -/
def jparseStrF : Nat → List Char → Option (List Char × List Char)
  | 0, _ => none
  | _, [] => none
  | f + 1, c :: rest =>
    if c == '"' then some ([], rest)
    else if c == '\\' then
      match rest with
      | [] => none
      | e :: rest2 =>
        let esc : Option (Char × List Char) :=
          if e == '"' then some ('"', rest2)
          else if e == '\\' then some ('\\', rest2)
          else if e == '/' then some ('/', rest2)
          else if e == 'b' then some (Char.ofNat 8, rest2)
          else if e == 'f' then some (Char.ofNat 12, rest2)
          else if e == 'n' then some ('\n', rest2)
          else if e == 'r' then some ('\r', rest2)
          else if e == 't' then some ('\t', rest2)
          else if e == 'u' then
            match jparseHex4 rest2 with
            | some (n, r) =>
              if between 55296 56319 n then
                match r with
                | '\\' :: 'u' :: r2 =>
                  match jparseHex4 r2 with
                  | some (n2, r3) =>
                    if between 56320 57343 n2 then
                      some (Char.ofNat (65536 + (n - 55296) * 1024 + (n2 - 56320)), r3)
                    else none
                  | none => none
                | _ => none
              else if between 56320 57343 n then none
              else some (Char.ofNat n, r)
            | none => none
          else none
        match esc with
        | some (ch, r) => (jparseStrF f r).map (fun p => (ch :: p.1, p.2))
        | none => none
    else if c.toNat < 32 then none
    else (jparseStrF f rest).map (fun p => (c :: p.1, p.2))

def digitsToNat (l : List Char) : Nat :=
  l.foldl (fun acc c => acc * 10 + (c.toNat - 48)) 0

def jparseExpTail (r : List Char) : Option (Int × List Char) :=
  let (sgn, r1) :=
    match r with
    | '+' :: rest => ((1 : Int), rest)
    | '-' :: rest => ((-1 : Int), rest)
    | _ => ((1 : Int), r)
  let ds := r1.takeWhile isDigitB
  if ds.isEmpty then none
  else some (sgn * (digitsToNat ds : Int), r1.dropWhile isDigitB)

/-- JSON number: optional minus, integer part without leading zeros,
optional fraction, optional exponent; the exact rational value. -/
def jparseNum (cs0 : List Char) : Option (Rat × List Char) :=
  let (neg, cs) :=
    match cs0 with
    | '-' :: rest => (true, rest)
    | _ => (false, cs0)
  let ds := cs.takeWhile isDigitB
  let r1 := cs.dropWhile isDigitB
  if ds.isEmpty then none
  else if Nat.ble 2 ds.length && (ds.headD '1' == '0') then none
  else
    let fracRes : Option (Nat × Nat × List Char) :=
      match r1 with
      | '.' :: r =>
        let fs := r.takeWhile isDigitB
        if fs.isEmpty then none
        else some (digitsToNat fs, fs.length, r.dropWhile isDigitB)
      | _ => some (0, 0, r1)
    match fracRes with
    | none => none
    | some (fp, fl, r2) =>
      let expRes : Option (Int × List Char) :=
        match r2 with
        | 'e' :: r => jparseExpTail r
        | 'E' :: r => jparseExpTail r
        | _ => some (0, r2)
      match expRes with
      | none => none
      | some (ex, r3) =>
        let base : Rat := (digitsToNat ds : Rat) + (fp : Rat) / (10 : Rat) ^ fl
        let scaled : Rat :=
          if 0 ≤ ex then base * (10 : Rat) ^ ex.toNat else base / (10 : Rat) ^ (-ex).toNat
        some ((if neg then -scaled else scaled), r3)

mutual

/-- One JSON value (fuelled; the fuel is generous at call sites). -/
def jparseVal : Nat → List Char → Option (JVal × List Char)
  | 0, _ => none
  | f + 1, cs0 =>
    match jskipWs cs0 with
    | [] => none
    | c :: rest =>
      if c == 'n' then
        match rest with
        | 'u' :: 'l' :: 'l' :: r => some (JVal.jnull, r)
        | _ => none
      else if c == 't' then
        match rest with
        | 'r' :: 'u' :: 'e' :: r => some (JVal.jbool true, r)
        | _ => none
      else if c == 'f' then
        match rest with
        | 'a' :: 'l' :: 's' :: 'e' :: r => some (JVal.jbool false, r)
        | _ => none
      else if c == '"' then
        (jparseStrF (rest.length + 1) rest).map (fun p => (JVal.jstr ⟨p.1⟩, p.2))
      else if c == lbrace then jparseObjTail f (jskipWs rest) []
      else if c == '[' then jparseArrTail f (jskipWs rest) []
      else jparseNum (c :: rest) |>.map (fun p => (JVal.jnum p.1, p.2))

/-- Object fields after `{` or `,` (whitespace already skipped). -/
def jparseObjTail : Nat → List Char → List (String × JVal) → Option (JVal × List Char)
  | 0, _, _ => none
  | f + 1, cs, acc =>
    match cs with
    | [] => none
    | c :: rest =>
      if c == rbrace && acc.isEmpty then some (JVal.jobj [], rest)
      else if c == '"' then
        match jparseStrF (rest.length + 1) rest with
        | none => none
        | some (k, r1) =>
          match jskipWs r1 with
          | ':' :: r2 =>
            match jparseVal f r2 with
            | none => none
            | some (v, r3) =>
              match jskipWs r3 with
              | ',' :: r4 => jparseObjTail f (jskipWs r4) (acc ++ [(⟨k⟩, v)])
              | x :: r4 =>
                if x == rbrace then some (JVal.jobj (acc ++ [(⟨k⟩, v)]), r4) else none
              | [] => none
          | _ => none
      else none

/-- Array items after `[` or `,` (whitespace already skipped). -/
def jparseArrTail : Nat → List Char → List JVal → Option (JVal × List Char)
  | 0, _, _ => none
  | f + 1, cs, acc =>
    match cs with
    | [] => none
    | c :: rest =>
      if c == ']' && acc.isEmpty then some (JVal.jarr [], rest)
      else
        match jparseVal f cs with
        | none => none
        | some (v, r1) =>
          match jskipWs r1 with
          | ',' :: r2 => jparseArrTail f (jskipWs r2) (acc ++ [v])
          | x :: r2 => if x == ']' then some (JVal.jarr (acc ++ [v]), r2) else none
          | [] => none

end

/-- `json.loads` on a text: one value, then only whitespace. -/
def pyJsonLoads (s : String) : Option JVal :=
  match jparseVal (2 * s.data.length + 2) s.data with
  | some (v, rest) => if (jskipWs rest).isEmpty then some v else none
  | none => none

/-! ### The Session-Scraping (Mercado Livre) converter — `mercadolivre.py` -/

/-- One cookie record as `validate_cookies` reads it: its `name` and its
`value` (`.get("value", "")` makes an absent value indistinguishable from
an empty one, so a plain string field is faithful). -/
structure Cookie where
  name : String
  value : String
deriving DecidableEq

/-- Last cookie with a given name: `{c["name"]: c for c in cookies}` keeps
the last record for a repeated name. -/
def cookieLast : List Cookie → String → Option Cookie
  | [], _ => none
  | c :: rest, n =>
    match cookieLast rest n with
    | some r => some r
    | none => if c.name == n then some c else none

def hasCookieName (cs : List Cookie) (n : String) : Bool :=
  (cookieLast cs n).isSome

/-- Presence of the three `critical_cookies` of `validate_cookies`. -/
def mlCriticalPresent (cs : List Cookie) : Bool :=
  hasCookieName cs "ssid" && hasCookieName cs "nsa_rotok" && hasCookieName cs "_csrf"

/-- The `nsa_rotok` value the JWT check reads (empty when absent, as
`.get(...).get("value", "")` yields). -/
def nsaVal (cs : List Cookie) : String :=
  match cookieLast cs "nsa_rotok" with
  | some c => c.value
  | none => ""

/-- The JWT-payload pipeline of `validate_cookies`, collapsed over its
`try`: split the token on dots and take piece 1 (an `IndexError` when
there is no dot), pad with `"=" * (4 - len % 4)`, lenient-base64-decode,
UTF-8-decode and JSON-parse (`json.loads` on the bytes), then read
`payload.get("exp", 0)`.  `none` is any raised exception — including a
non-object payload (`AttributeError`) and a non-numeric `exp` (the
`exp < time.time()` comparison raises `TypeError`; Python `bool` compares
as 0/1).  `some q` is a comparable `exp` value. -/
def jwtExpOf (v : String) : Option Rat :=
  match (splitCh '.' v.data).get? 1 with
  | none => none
  | some p =>
    match pyB64Decode ⟨p ++ List.replicate (4 - p.length % 4) '='⟩ with
    | none => none
    | some bs =>
      match utf8Dec bs with
      | none => none
      | some chars =>
        match pyJsonLoads ⟨chars⟩ with
        | none => none
        | some (JVal.jobj fs) =>
          match lastAssoc fs "exp" with
          | none => some 0
          | some (JVal.jnum q) => some q
          | some (JVal.jbool b) => some (if b then 1 else 0)
          | some _ => none
        | some _ => none

/-- `MercadoLivreConverter.validate_cookies`: false on no cookies, on a
missing critical cookie, and — for a non-empty `nsa_rotok` value — on any
failure of the JWT pipeline or an `exp` below `time.time()` (the rational
parameter `now`). -/
def mlValidateCookies (cs : List Cookie) (now : Rat) : Bool :=
  if cs.isEmpty then false
  else if !mlCriticalPresent cs then false
  else if nsaVal cs == "" then true
  else
    match jwtExpOf (nsaVal cs) with
    | none => false
    | some q => if q < now then false else true

/-- `MercadoLivreConverter._is_mercadolivre_link`: `re.search` over
`ML_DOMAINS`, literal once the escaped dots are resolved. -/
def isMLLink (url : String) : Bool :=
  listSub "mercadolivre.com.br".data url.data
    || listSub "mercadolivre.com".data url.data
    || listSub "mercadolibre.com".data url.data
    || listSub "produto.mercadolivre.com.br".data url.data

/-- `MercadoLivreConverter._is_affiliate_link`. -/
def isAffiliateLink (url : String) : Bool :=
  listSub "/social/".data url.data
    || listSub "/sec/".data url.data
    || listSub "matt_tool=".data url.data

/-- Outcomes of the effectful steps `convert_link` runs, each an awaited
call that either returns or raises: `load_cookies` (file read),
`_extract_product_link_from_affiliate` (browser unwrap),
`_extract_csrf_token` (browser scrape), `_make_api_request` (API call). -/
structure MLEnv where
  loadCookies : Except PyExc (List Cookie)
  unwrap : Except PyExc String
  csrf : Except PyExc String
  api : Except PyExc String

/-- Cookie resolution at the head of `convert_link`: `if not self.cookies:
await self.load_cookies()` — `None` and the empty list both trigger the
load. -/
def mlResolveCookies (c0 : Option (List Cookie)) (env : MLEnv) : Except PyExc (List Cookie) :=
  match c0 with
  | some cs => if cs.isEmpty then env.loadCookies else Except.ok cs
  | none => env.loadCookies

/-- CSRF resolution: `if not self.csrf_token:` — `None` and the empty
string both trigger `_extract_csrf_token`. -/
def mlResolveCsrf (t0 : Option String) (env : MLEnv) : Except PyExc String :=
  match t0 with
  | some t => if t == "" then env.csrf else Except.ok t
  | none => env.csrf

/-- The three exception classes the `except (...)` re-raise clause of
`convert_link` names. -/
def isMLHard : PyExc → Bool
  | PyExc.mlRateLimit _ => true
  | PyExc.mlInvalidSession _ => true
  | PyExc.mlProductNotFound _ => true
  | _ => false

/-- `MercadoLivreConverter.convert_link`, parameterised by the converter's
cached state (`self.cookies`, `self.csrf_token`) and the step outcomes.
Only the `_make_api_request` call sits inside the `try`: its
rate-limit / invalid-session / not-found errors re-raise, any other of its
exceptions becomes a soft fallback to the (possibly unwrapped) original
link — while failures of the earlier steps (link validation, unwrap,
cookie load, cookie validation, CSRF extraction) propagate to the
caller. -/
def mlConvertLink (url : String) (c0 : Option (List Cookie)) (t0 : Option String)
    (env : MLEnv) (now : Rat) : Except PyExc String :=
  if !isMLLink url then
    Except.error (PyExc.invalidLink ("Link não é do Mercado Livre: " ++ url))
  else
    match (if isAffiliateLink url then env.unwrap else Except.ok url) with
    | Except.error e => Except.error e
    | Except.ok url2 =>
      if !validUrl url2 then
        Except.error (PyExc.invalidLink ("Invalid URL format: " ++ url2))
      else
        match mlResolveCookies c0 env with
        | Except.error e => Except.error e
        | Except.ok cs =>
          if !mlValidateCookies cs now then
            Except.error (PyExc.mlInvalidSession
              "Cookies expirados ou inválidos. Execute generate_ml_cookies.py")
          else
            match mlResolveCsrf t0 env with
            | Except.error e => Except.error e
            | Except.ok _ =>
              match env.api with
              | Except.ok link => Except.ok link
              | Except.error e =>
                if isMLHard e then Except.error e else Except.ok url2

/-! ## Theorems settling the claims -/

/-- Helper: the manager's branch for an undetected marketplace. -/
theorem manager_detect_none (reg : Registry) (orig : String)
    (hd : detectMarketplace orig = none) :
    managerConvertLink reg orig =
      fallbackR orig "marketplace_not_detected" "Could not detect marketplace from URL" := by
  simp [managerConvertLink, hd]

/-- Helper: the manager's branch for a detected but unregistered
marketplace. -/
theorem manager_unregistered (reg : Registry) (orig m : String)
    (hd : detectMarketplace orig = some m) (hl : lastAssoc reg m = none) :
    managerConvertLink reg orig =
      fallbackR orig m ("Marketplace not supported yet: " ++ m) := by
  simp [managerConvertLink, hd, hl]

/-- Helper: the manager's branch for a converter that returns. -/
theorem manager_conv_ok (reg : Registry) (orig m : String) (conv : Converter) (s : String)
    (hd : detectMarketplace orig = some m) (hl : lastAssoc reg m = some conv)
    (hc : conv orig = Except.ok s) :
    managerConvertLink reg orig = ⟨s, "success", m, none⟩ := by
  simp [managerConvertLink, hd, hl, hc]

/-- Helper: the manager's branch for a converter that raises — the
re-detection in the `except` handler yields the same marketplace. -/
theorem manager_conv_err (reg : Registry) (orig m : String) (conv : Converter) (e : PyExc)
    (hd : detectMarketplace orig = some m) (hl : lastAssoc reg m = some conv)
    (hc : conv orig = Except.error e) :
    managerConvertLink reg orig = fallbackR orig m (pyStr e) := by
  simp [managerConvertLink, hd, hl, hc]

/-- Helper: the unsupported-marketplace error always contains the text
`not supported`, whatever the marketplace identifier is. -/
theorem notSupported_sub (m : String) :
    strHasSub ("Marketplace not supported yet: " ++ m) "not supported" = true := by
  cases m
  rfl

/-- C1 (amended): for every input string and registry,
`AffiliateManager.convert_link` returns a `ConversionResult` (so it never
propagates an exception — even a raising converter lands in the fallback
branch, conjunct 4) whose status is `success` or `fallback`; on fallback
the link is the original input, on success it is the converter's returned
link; and the link is non-empty whenever the input is non-empty, except
that a success result only carries whatever link the converter returned.
(The claim's unconditional non-emptiness fails at the empty input.) -/
theorem C1_manager_result (reg : Registry) (orig : String) :
    ((managerConvertLink reg orig).status = "success"
       ∨ (managerConvertLink reg orig).status = "fallback")
    ∧ ((managerConvertLink reg orig).status = "fallback"
       → (managerConvertLink reg orig).link = orig)
    ∧ (∀ m conv s, detectMarketplace orig = some m → lastAssoc reg m = some conv →
        conv orig = Except.ok s → managerConvertLink reg orig = ⟨s, "success", m, none⟩)
    ∧ (∀ m conv e, detectMarketplace orig = some m → lastAssoc reg m = some conv →
        conv orig = Except.error e →
        managerConvertLink reg orig = ⟨orig, "fallback", m, some (pyStr e)⟩)
    ∧ (orig ≠ "" → (managerConvertLink reg orig).status = "fallback"
       → (managerConvertLink reg orig).link ≠ "") := by
  rcases hd : detectMarketplace orig with _ | m
  · rw [manager_detect_none reg orig hd]
    refine ⟨Or.inr rfl, fun _ => rfl, ?_, ?_, fun hne _ => hne⟩
    · intro m conv s h1 h2 h3
      exact Option.noConfusion h1
    · intro m conv e h1 h2 h3
      exact Option.noConfusion h1
  · rcases hl : lastAssoc reg m with _ | conv
    · rw [manager_unregistered reg orig m hd hl]
      refine ⟨Or.inr rfl, fun _ => rfl, ?_, ?_, fun hne _ => hne⟩
      · intro m2 conv s h1 h2 h3
        obtain rfl := Option.some.inj h1
        rw [hl] at h2
        exact Option.noConfusion h2
      · intro m2 conv e h1 h2 h3
        obtain rfl := Option.some.inj h1
        rw [hl] at h2
        exact Option.noConfusion h2
    · rcases hc : conv orig with e | s
      · rw [manager_conv_err reg orig m conv e hd hl hc]
        refine ⟨Or.inr rfl, fun _ => rfl, ?_, ?_, fun hne _ => hne⟩
        · intro m2 conv2 s h1 h2 h3
          obtain rfl := Option.some.inj h1
          rw [hl] at h2
          obtain rfl := Option.some.inj h2
          rw [hc] at h3
          exact Except.noConfusion h3
        · intro m2 conv2 e2 h1 h2 h3
          obtain rfl := Option.some.inj h1
          rw [hl] at h2
          obtain rfl := Option.some.inj h2
          rw [hc] at h3
          obtain rfl := Except.error.inj h3
          rfl
      · rw [manager_conv_ok reg orig m conv s hd hl hc]
        refine ⟨Or.inl rfl, ?_, ?_, ?_, ?_⟩
        · intro h
          exact absurd h (show ("success" : String) ≠ "fallback" by decide)
        · intro m2 conv2 s2 h1 h2 h3
          obtain rfl := Option.some.inj h1
          rw [hl] at h2
          obtain rfl := Option.some.inj h2
          rw [hc] at h3
          obtain rfl := Except.ok.inj h3
          rfl
        · intro m2 conv2 e h1 h2 h3
          obtain rfl := Option.some.inj h1
          rw [hl] at h2
          obtain rfl := Option.some.inj h2
          rw [hc] at h3
          exact Except.noConfusion h3
        · intro _ h
          exact absurd h (show ("success" : String) ≠ "fallback" by decide)

/-- C1 counterexample: on the empty input string the manager returns a
result whose `link` field is empty, so the claim's "link field is
non-empty for every input string" is false as stated. -/
theorem C1_empty_input : managerConvertLink [] "" =
    ⟨"", "fallback", "marketplace_not_detected", some "Could not detect marketplace from URL"⟩
    ∧ (managerConvertLink [] "").link = "" := by
  exact ⟨rfl, rfl⟩

/-- C2: every result of `AffiliateManager.convert_link` carries a non-null
`error` exactly when its `status` is `fallback` — success results carry
`error = none`, fallback results a message. -/
theorem C2_error_iff_fallback (reg : Registry) (orig : String) :
    (managerConvertLink reg orig).error ≠ none
      ↔ (managerConvertLink reg orig).status = "fallback" := by
  rcases hd : detectMarketplace orig with _ | m
  · rw [manager_detect_none reg orig hd]
    simp [fallbackR]
  · rcases hl : lastAssoc reg m with _ | conv
    · rw [manager_unregistered reg orig m hd hl]
      simp [fallbackR]
    · rcases hc : conv orig with e | s
      · rw [manager_conv_err reg orig m conv e hd hl hc]
        simp [fallbackR]
      · rw [manager_conv_ok reg orig m conv s hd hl hc]
        simp

/-- C9: a URL whose domain the detector does not recognise yields a
fallback result carrying the original link; a recognised domain with no
registered converter yields a fallback result carrying the original link
and an error that mentions `not supported`. -/
theorem C9_unknown_and_unregistered (reg : Registry) (url : String) :
    (detectMarketplace url = none →
       managerConvertLink reg url =
         ⟨url, "fallback", "marketplace_not_detected", some "Could not detect marketplace from URL"⟩)
    ∧ (∀ m, detectMarketplace url = some m → lastAssoc reg m = none →
       managerConvertLink reg url =
         ⟨url, "fallback", m, some ("Marketplace not supported yet: " ++ m)⟩
       ∧ strHasSub ("Marketplace not supported yet: " ++ m) "not supported" = true) := by
  constructor
  · intro hd
    rw [manager_detect_none reg url hd]
    rfl
  · intro m hd hl
    rw [manager_unregistered reg url m hd hl]
    exact ⟨rfl, notSupported_sub m⟩

/-- C10 (implicit): when the registered Shopee converter soft-falls-back
internally (here: a 429 rate-limit response makes `convert_link` return the
original link), the manager reports the outcome as `status = "success"`
with `error = none` and `link` equal to the original input — a success
result does not certify that the link was converted. -/
theorem C10_internal_fallback_is_success (url : String) (resp : ShopeeResp)
    (h1 : detectMarketplace url = some "shopee")
    (h2 : isShopeeLink url = true) (h3 : validUrl url = true)
    (h4 : resp.status = 429) :
    shopeeConvertLink url resp = Except.ok url
    ∧ managerConvertLink [("shopee", fun u => shopeeConvertLink u resp)] url
        = ⟨url, "success", "shopee", none⟩ := by
  have hconv : shopeeConvertLink url resp = Except.ok url := by
    simp [shopeeConvertLink, shopeeGenerate, h2, h3, h4]
  exact ⟨hconv,
    manager_conv_ok [("shopee", fun u => shopeeConvertLink u resp)] url "shopee"
      (fun u => shopeeConvertLink u resp) url h1 rfl hconv⟩

/-- C10 witness: the situation of the theorem at a concrete Shopee URL and
a concrete 429 response. -/
theorem C10_witness :
    managerConvertLink
        [("shopee", fun u => shopeeConvertLink u ⟨429, none, none⟩)]
        "https://shopee.com.br/a-i.1.2"
      = ⟨"https://shopee.com.br/a-i.1.2", "success", "shopee", none⟩ :=
  (C10_internal_fallback_is_success "https://shopee.com.br/a-i.1.2" ⟨429, none, none⟩
    (by decide) (by decide) (by decide) rfl).2

/-- C3 (amended): per status code, the Shopee API helper
`_generate_short_link` raises `ShopeeRateLimitError` on 429,
`ShopeeInvalidSessionError` on 401 and `ShopeeAPIError` on any other
non-200, returns the short link on a 200 carrying
`data.generateShortLink.shortLink`, and raises `ShopeeAPIError` on a 200
whose body has no `data.generateShortLink` but a non-empty GraphQL
`errors` array — but `convert_link` catches every one of these exceptions
(not only the rate limit) and returns the original link as a soft
fallback, so on a valid Shopee URL it never raises for any response. -/
theorem C3_shopee_status_behaviour (url : String) (resp : ShopeeResp)
    (h1 : isShopeeLink url = true) (h2 : validUrl url = true) :
    (resp.status = 429 →
       shopeeGenerate resp
         = Except.error (PyExc.shopeeRateLimit "Rate limit excedido pela API da Shopee")
       ∧ shopeeConvertLink url resp = Except.ok url)
    ∧ (resp.status = 401 →
       (∃ m, shopeeGenerate resp = Except.error (PyExc.shopeeInvalidSession m))
       ∧ shopeeConvertLink url resp = Except.ok url)
    ∧ (resp.status ≠ 429 → resp.status ≠ 401 → resp.status ≠ 200 →
       (∃ m, shopeeGenerate resp = Except.error (PyExc.shopeeApiError m))
       ∧ shopeeConvertLink url resp = Except.ok url)
    ∧ (∀ s, resp.status = 200 → resp.dataShort = some (some s) →
       shopeeGenerate resp = Except.ok s ∧ shopeeConvertLink url resp = Except.ok s)
    ∧ (∀ ms mt, resp.status = 200 → resp.dataShort = none → resp.errs = some (ms :: mt) →
       (∃ m, shopeeGenerate resp = Except.error (PyExc.shopeeApiError m))
       ∧ shopeeConvertLink url resp = Except.ok url)
    ∧ (∀ e, shopeeGenerate resp = Except.error e → shopeeConvertLink url resp = Except.ok url) := by
  have hcv : ∀ e, shopeeGenerate resp = Except.error e → shopeeConvertLink url resp = Except.ok url := by
    intro e he
    simp [shopeeConvertLink, h1, h2, he]
  refine ⟨?_, ?_, ?_, ?_, ?_, hcv⟩
  · intro h429
    have hg : shopeeGenerate resp
        = Except.error (PyExc.shopeeRateLimit "Rate limit excedido pela API da Shopee") := by
      simp [shopeeGenerate, h429]
    exact ⟨hg, hcv _ hg⟩
  · intro h401
    have hg : shopeeGenerate resp
        = Except.error (PyExc.shopeeInvalidSession
            "Credenciais inválidas. Verifique SHOPEE_APP_ID e SHOPEE_APP_PASSWORD no .env") := by
      simp [shopeeGenerate, h401]
    exact ⟨⟨_, hg⟩, hcv _ hg⟩
  · intro h429 h401 h200
    have hg : shopeeGenerate resp
        = Except.error (PyExc.shopeeApiError ("API retornou status " ++ toString resp.status)) := by
      simp [shopeeGenerate, h429, h401, h200]
    exact ⟨⟨_, hg⟩, hcv _ hg⟩
  · intro s h200 hds
    have hg : shopeeGenerate resp = Except.ok s := by
      simp [shopeeGenerate, h200, hds]
    refine ⟨hg, ?_⟩
    simp [shopeeConvertLink, h1, h2, hg]
  · intro ms mt h200 hds herr
    have hg : shopeeGenerate resp
        = Except.error (PyExc.shopeeApiError ("GraphQL error: " ++ ms.getD "Unknown error")) := by
      simp [shopeeGenerate, h200, hds, herr]
    exact ⟨⟨_, hg⟩, hcv _ hg⟩

/-- C3 witness: the theorem applied at a concrete valid Shopee URL and a
concrete 429 response — the soft fallback returns the original link. -/
theorem C3_witness :
    shopeeGenerate ⟨429, none, none⟩
      = Except.error (PyExc.shopeeRateLimit "Rate limit excedido pela API da Shopee")
    ∧ shopeeConvertLink "https://shopee.com.br/a-i.1.2" ⟨429, none, none⟩
      = Except.ok "https://shopee.com.br/a-i.1.2" :=
  (C3_shopee_status_behaviour "https://shopee.com.br/a-i.1.2" ⟨429, none, none⟩
    (by decide) (by decide)).1 rfl

/-- C3 counterexample: on a valid Shopee URL and a 401 response
`convert_link` does not raise `InvalidSession` — it catches the
`ShopeeInvalidSessionError` the helper raised and returns the original
link, so the claim's "a 401 response raises InvalidSession" is false. -/
theorem C3_401_does_not_raise :
    shopeeConvertLink "https://shopee.com.br/produto-i.100.200" ⟨401, none, none⟩
      = Except.ok "https://shopee.com.br/produto-i.100.200"
    ∧ (∃ m, shopeeGenerate ⟨401, none, none⟩
        = Except.error (PyExc.shopeeInvalidSession m)) := by
  exact ⟨rfl, ⟨_, rfl⟩⟩

/-- C4 (amended): in the Mercado Livre converter's API-request phase,
`MLRateLimitError`, `MLInvalidSessionError` and `MLProductNotFoundError`
re-raise to the caller while any other exception of that phase becomes a
soft fallback returning the original link — provided every earlier phase
(link check, no unwrap needed, URL shape, cookie load, cookie validation,
CSRF acquisition) succeeded; failures of those earlier phases propagate
instead (see the counterexample). -/
theorem C4_ml_fallback_policy (url : String) (c0 : Option (List Cookie)) (t0 : Option String)
    (env : MLEnv) (now : Rat) (cs : List Cookie) (t : String)
    (h1 : isMLLink url = true) (h2 : isAffiliateLink url = false) (h3 : validUrl url = true)
    (h4 : mlResolveCookies c0 env = Except.ok cs) (h5 : mlValidateCookies cs now = true)
    (h6 : mlResolveCsrf t0 env = Except.ok t) :
    mlConvertLink url c0 t0 env now =
      (match env.api with
       | Except.ok s => Except.ok s
       | Except.error e => if isMLHard e then Except.error e else Except.ok url) := by
  simp [mlConvertLink, h1, h2, h3, h4, h5, h6]

/-- C4 witness: the theorem at concrete inputs — a soft `MLAPIError` from
the API phase yields the original link back. -/
theorem C4_witness :
    mlConvertLink "https://www.mercadolivre.com.br/p/MLB12345"
        (some [⟨"ssid", "s"⟩, ⟨"nsa_rotok", ""⟩, ⟨"_csrf", "c"⟩]) (some "tok")
        ⟨Except.ok [], Except.ok "", Except.ok "t2",
          Except.error (PyExc.mlApiError "Erro da API ML: 500")⟩ 1
      = Except.ok "https://www.mercadolivre.com.br/p/MLB12345" :=
  C4_ml_fallback_policy "https://www.mercadolivre.com.br/p/MLB12345"
    (some [⟨"ssid", "s"⟩, ⟨"nsa_rotok", ""⟩, ⟨"_csrf", "c"⟩]) (some "tok")
    ⟨Except.ok [], Except.ok "", Except.ok "t2",
      Except.error (PyExc.mlApiError "Erro da API ML: 500")⟩ 1
    [⟨"ssid", "s"⟩, ⟨"nsa_rotok", ""⟩, ⟨"_csrf", "c"⟩] "tok"
    (by decide) (by decide) (by decide) rfl (by decide) rfl

/-- C4 counterexample: a `ConversionError` arising in the CSRF-acquisition
step — not one of the three named errors — propagates out of
`convert_link` instead of becoming a soft fallback, because the CSRF step
sits before the `try` block; the claim's "any other unexpected exception
arising during the conversion is caught inside the converter" is false. -/
theorem C4_csrf_error_propagates :
    mlConvertLink "https://www.mercadolivre.com.br/p/MLB12345"
        (some [⟨"ssid", "s"⟩, ⟨"nsa_rotok", ""⟩, ⟨"_csrf", "c"⟩]) none
        ⟨Except.ok [], Except.ok "",
          Except.error (PyExc.conversionError "CSRF token não encontrado na página ML."),
          Except.ok "https://x"⟩ 1
      = Except.error (PyExc.conversionError "CSRF token não encontrado na página ML.")
    ∧ isMLHard (PyExc.conversionError "CSRF token não encontrado na página ML.") = false := by
  exact ⟨rfl, rfl⟩

/-- C5: the Amazon converter extracts the product identifier with an
ordered pattern list where the first match wins (a `/dp/` hit decides even
if later patterns would also match), raises `ConversionError` when no
pattern matches a valid Amazon URL, and on
`https://amazon.com.br/dp/B08N5WRWNW` with tag `promo-20` returns exactly
`https://amazon.com.br/dp/B08N5WRWNW?tag=promo-20`. -/
theorem C5_amazon_convert :
    amazonConvertLink "promo-20" "https://amazon.com.br/dp/B08N5WRWNW"
      = Except.ok "https://amazon.com.br/dp/B08N5WRWNW?tag=promo-20"
    ∧ (∀ url tag, isAmazonLink url = true → validUrl url = true → extractAsin url = none →
        amazonConvertLink tag url = Except.error (PyExc.conversionError
          ("Não foi possível extrair ASIN do link: " ++ url
            ++ ". Link pode estar malformado ou não ser de produto.")))
    ∧ (∀ url a, searchAsin "/dp/".data url.data = some a → extractAsin url = some ⟨a⟩)
    ∧ (∃ url, isAmazonLink url = true ∧ validUrl url = true ∧ extractAsin url = none) := by
  refine ⟨rfl, ?_, ?_, ?_⟩
  · intro url tag hA hU hE
    simp [amazonConvertLink, hA, hU, hE]
  · intro url a h
    simp [extractAsin, h]
  · exact ⟨"https://amazon.com.br/gp/help", by decide, by decide, by decide⟩

/-- C7: the Shopee request signature is the SHA-256 hex digest of
`appId ++ unixTimestampSeconds ++ compactJsonBody ++ appSecret` (UTF-8
bytes of the compact, whitespace-free `json.dumps` of the query payload);
it is deterministic, and at the spec's golden input
`(appId = "A", secret = "S", timestamp = "1000", body = the query "Q")`
it reproduces the concrete digest below. -/
theorem C7_signature :
    (∀ a s t q, shopeeSignature a s t q
       = sha256Hex (utf8Encode (a ++ t ++ shopeeCompactBody q ++ s)))
    ∧ shopeeSignature "A" "S" "1000" "Q"
       = "dd022c18105d185ca77db17c090c242cb8d301d98a1ea7a14eea5bc647d494a1"
    ∧ (∀ a s t q, shopeeSignature a s t q = shopeeSignature a s t q) := by
  exact ⟨fun a s t q => rfl, by rfl, fun a s t q => rfl⟩

/-- C8: the Amazon associate tag is validated at construction time against
`^[a-zA-Z0-9.]+(-[a-zA-Z0-9.]+)*-\d+$`: the constructor accepts
`promo-20` and rejects `bad_tag` with the invalid-tag error, while
`convert_link` performs no per-call tag validation — it happily builds a
link with an invalid tag. -/
theorem C8_tag_validation :
    validAssociateTag "promo-20" = true
    ∧ validAssociateTag "bad_tag" = false
    ∧ amazonInit "promo-20" = Except.ok ()
    ∧ (∃ m, amazonInit "bad_tag" = Except.error (PyExc.amazonInvalidTag m))
    ∧ amazonConvertLink "bad_tag" "https://amazon.com.br/dp/B08N5WRWNW"
       = Except.ok "https://amazon.com.br/dp/B08N5WRWNW?tag=bad_tag" := by
  exact ⟨rfl, rfl, rfl, ⟨_, rfl⟩, rfl⟩

end PromoStories
